import Mathlib

/-!
Verification of the device-tree overlay configfs driver (`drivers/of/dtbocfg.c`).

The driver manages one kind of object, `struct dtbocfg_overlay_item`, holding
an overlay id (`-1` sentinel: not applied), a heap-allocated blob pointer and
its size.  We embed the item state as a record, the blob pointer as an
`Option (List Nat)` (where `none` is the NULL pointer) and each configfs
attribute callback as a pure state transformer translated line by line from
the C source.  The backend (`of_fdt_unflatten_tree` + `of_resolve_phandles` +
`of_overlay_create`, all outside this repository) is abstracted as an injected
function from the blob to an `Int`: a negative result is a failure of any of
the three steps, a non-negative result is the fresh overlay id.  Backend calls
are recorded as events so that call-counting properties can be stated.
-/

namespace Dtbocfg

/-- Linux errno numbers used by the driver (returned negated). -/
def EPERM : Int := 1

/-- errno: out of memory. -/
def ENOMEM : Int := 12

/-- errno: invalid argument. -/
def EINVAL : Int := 22

/-- State of one `struct dtbocfg_overlay_item`: the overlay id (`-1` when not
applied), the `dtbo` blob pointer (`none` = NULL) and `dtbo_size`. -/
structure OverlayItem where
  id : Int
  dtbo : Option (List Nat)
  dtbo_size : Nat
deriving DecidableEq

/-- A call into the external backend: an apply attempt (the composite
unflatten/resolve/of_overlay_create sequence of `dtbocfg_overlay_item_create`,
recording the blob it was handed and the result it returned), or a release
(`of_overlay_destroy`) of a given overlay id. -/
inductive BEvent where
  | applyCall (blob : Option (List Nat)) (r : Int)
  | releaseCall (i : Int)
deriving DecidableEq

/-- Result of a configfs store callback: the new item state, the `ssize_t`
return value (negative = error), and the backend calls made. -/
structure StoreRes where
  st : OverlayItem
  ret : Int
  evs : List BEvent
deriving DecidableEq

/-- Result of the `dtbo` show callback: the item state afterwards, the
`ssize_t` return value, and the bytes copied into the caller's page. -/
structure ShowRes where
  st : OverlayItem
  ret : Int
  buf : List Nat
deriving DecidableEq

/-- `dtbocfg_overlay_item_create`: unflatten the stored blob, resolve
phandles, and create the overlay; on success (`0 ≤ ap s.dtbo`) record the
returned id in `s.id` and return 0, on failure leave the state unchanged and
return the negative error.  `ap` is the abstract backend. -/
def dtbocfg_overlay_item_create (ap : Option (List Nat) → Int)
    (s : OverlayItem) : StoreRes :=
  let r := ap s.dtbo
  if r < 0 then ⟨s, r, [BEvent.applyCall s.dtbo r]⟩
  else ⟨{ s with id := r }, 0, [BEvent.applyCall s.dtbo r]⟩

/-- `dtbocfg_overlay_item_release`: if `0 ≤ id`, call
`of_overlay_destroy(id)` and reset `id` to `-1`; otherwise do nothing. -/
def dtbocfg_overlay_item_release (s : OverlayItem) :
    OverlayItem × List BEvent :=
  if 0 ≤ s.id then ({ s with id := -1 }, [BEvent.releaseCall s.id])
  else (s, [])

/-- `dtbocfg_overlay_item_status_store`: parse the written text with
`kstrtoul(buf, 10, ...)` — modelled by the already-parsed `parsed : Option Nat`
(`none` = parse failure) — then: on parse failure return `-EPERM`; on zero,
release if applied; on nonzero, create if not applied (the return value of
`dtbocfg_overlay_item_create` is discarded by the C code); return `count`. -/
def dtbocfg_overlay_item_status_store (ap : Option (List Nat) → Int)
    (s : OverlayItem) (parsed : Option Nat) (count : Nat) : StoreRes :=
  match parsed with
  | none => ⟨s, -EPERM, []⟩
  | some value =>
    if value = 0 then
      if 0 ≤ s.id then
        let p := dtbocfg_overlay_item_release s
        ⟨p.1, (count : Int), p.2⟩
      else ⟨s, (count : Int), []⟩
    else
      if s.id < 0 then
        let c := dtbocfg_overlay_item_create ap s
        ⟨c.st, (count : Int), c.evs⟩
      else ⟨s, (count : Int), []⟩

/-- `dtbocfg_overlay_item_status_show`: print `1` if `0 ≤ id`, else `0`;
the item state is returned to make the absence of mutation provable. -/
def dtbocfg_overlay_item_status_show (s : OverlayItem) : OverlayItem × Nat :=
  (s, if 0 ≤ s.id then 1 else 0)

/-- The tail of `dtbocfg_overlay_item_dtbo_store` after the busy/free
prologue: `kmemdup` the written bytes (`alloc` says whether the allocation
succeeds); on failure set `dtbo = NULL`, `dtbo_size = 0` and return
`-ENOMEM`; on success store the copy and return `count`. -/
def dtbocfg_dtbo_copyin (alloc : Bool) (s : OverlayItem) (data : List Nat) :
    OverlayItem × Int :=
  if alloc then
    ({ s with dtbo := some data, dtbo_size := data.length }, (data.length : Int))
  else
    ({ s with dtbo := none, dtbo_size := 0 }, -ENOMEM)

/-- `dtbocfg_overlay_item_dtbo_store`: if a blob is present
(`0 < dtbo_size`), fail with `-EPERM` when applied (`0 ≤ id`), otherwise
free the old blob; then duplicate the written bytes. -/
def dtbocfg_overlay_item_dtbo_store (alloc : Bool) (s : OverlayItem)
    (data : List Nat) : OverlayItem × Int :=
  if 0 < s.dtbo_size then
    if 0 ≤ s.id then (s, -EPERM)
    else dtbocfg_dtbo_copyin alloc { s with dtbo := none, dtbo_size := 0 } data
  else dtbocfg_dtbo_copyin alloc s data

/-- `dtbocfg_overlay_item_dtbo_show`: return 0 (no bytes) when `dtbo` is
NULL; fail with `-EINVAL` when `dtbo_size` exceeds the page limit; otherwise
copy `dtbo_size` bytes out and return `dtbo_size`.  `limit` is `PAGE_SIZE`. -/
def dtbocfg_overlay_item_dtbo_show (limit : Nat) (s : OverlayItem) : ShowRes :=
  match s.dtbo with
  | none => ⟨s, 0, []⟩
  | some data =>
    if limit < s.dtbo_size then ⟨s, -EINVAL, []⟩
    else ⟨s, (s.dtbo_size : Int), data.take s.dtbo_size⟩

/-- `dtbocfg_overlay_release` (the configfs `.release` destructor): force a
backend release if still applied, then free the blob (`dtbo = NULL`,
`dtbo_size = 0`); the returned state is the item just before `kfree`. -/
def dtbocfg_overlay_release (s : OverlayItem) : OverlayItem × List BEvent :=
  let p := dtbocfg_overlay_item_release s
  let s2 :=
    if p.1.dtbo.isSome then { p.1 with dtbo := none, dtbo_size := 0 } else p.1
  (s2, p.2)

/-- `dtbocfg_overlay_group_make_item`: a fresh item has `id = -1`,
`dtbo = NULL`, `dtbo_size = 0` (`kzalloc` then explicit initialisation). -/
def initItem : OverlayItem := ⟨-1, none, 0⟩

/-- One client operation against an item: a write to `status` (already
parsed, with the raw byte count), a write to `dtbo` (with the allocation
outcome), or a read of either attribute. -/
inductive Op where
  | opStatusStore (parsed : Option Nat) (count : Nat)
  | opDtboStore (alloc : Bool) (data : List Nat)
  | opStatusShow
  | opDtboShow (limit : Nat)

/-- Execute one operation: the next state and the backend calls it made. -/
def stepOp (ap : Option (List Nat) → Int) (s : OverlayItem) :
    Op → OverlayItem × List BEvent
  | Op.opStatusStore parsed count =>
    let r := dtbocfg_overlay_item_status_store ap s parsed count
    (r.st, r.evs)
  | Op.opDtboStore alloc data =>
    ((dtbocfg_overlay_item_dtbo_store alloc s data).1, [])
  | Op.opStatusShow => ((dtbocfg_overlay_item_status_show s).1, [])
  | Op.opDtboShow limit => ((dtbocfg_overlay_item_dtbo_show limit s).st, [])

/-- Execute a sequence of operations, collecting the backend call trace. -/
def run (ap : Option (List Nat) → Int) (s : OverlayItem) :
    List Op → OverlayItem × List BEvent
  | [] => (s, [])
  | o :: os =>
    let p := stepOp ap s o
    let q := run ap p.1 os
    (q.1, p.2 ++ q.2)

/-- Item states reachable from a freshly created item by client operations. -/
inductive Reachable (ap : Option (List Nat) → Int) : OverlayItem → Prop
  | init : Reachable ap initItem
  | step (s : OverlayItem) (o : Op) :
      Reachable ap s → Reachable ap (stepOp ap s o).1

/-- Modelled from the spec: the backend apply (the unflatten step of
`of_fdt_unflatten_tree`, outside this repository) fails on an absent (NULL)
blob and on an empty blob — "No path skips Loaded: apply requires a
non-empty blob"; the reference behavior "silently ignores `set_status(true)`
on an empty blob (the backend call is simply skipped when unflattening
fails)". -/
def BackendRejectsEmpty (ap : Option (List Nat) → Int) : Prop :=
  ap none < 0 ∧ ap (some []) < 0

/-- The state invariant the driver maintains: `dtbo_size` is the length of
the allocated blob (0 when the pointer is NULL), and an applied item holds a
non-empty blob. -/
def Valid (s : OverlayItem) : Prop :=
  s.dtbo_size = (s.dtbo.getD []).length ∧ (0 ≤ s.id → 0 < s.dtbo_size)

theorem valid_initItem : Valid initItem := by
  constructor <;> simp [initItem, Valid]

theorem valid_stepOp (ap : Option (List Nat) → Int)
    (hap : BackendRejectsEmpty ap) (s : OverlayItem) (hs : Valid s) (o : Op) :
    Valid (stepOp ap s o).1 := by
  obtain ⟨hlen, happlied⟩ := hs
  cases o with
  | opStatusStore parsed count =>
    cases parsed with
    | none =>
      have hst : (stepOp ap s (Op.opStatusStore none count)).1 = s := by
        simp [stepOp, dtbocfg_overlay_item_status_store]
      rw [hst]; exact ⟨hlen, happlied⟩
    | some value =>
      by_cases hv : value = 0
      · by_cases hid : 0 ≤ s.id
        · have hst : (stepOp ap s (Op.opStatusStore (some value) count)).1
              = { s with id := -1 } := by
            simp [stepOp, dtbocfg_overlay_item_status_store, hv, hid,
              dtbocfg_overlay_item_release]
          rw [hst]
          exact ⟨hlen, by intro h; simp at h⟩
        · have hst : (stepOp ap s (Op.opStatusStore (some value) count)).1 = s := by
            simp [stepOp, dtbocfg_overlay_item_status_store, hv, hid]
          rw [hst]; exact ⟨hlen, happlied⟩
      · by_cases hid : s.id < 0
        · by_cases hr : ap s.dtbo < 0
          · have hst : (stepOp ap s (Op.opStatusStore (some value) count)).1 = s := by
              simp [stepOp, dtbocfg_overlay_item_status_store, hv, hid,
                dtbocfg_overlay_item_create, hr]
            rw [hst]; exact ⟨hlen, happlied⟩
          · have hblob : 0 < s.dtbo_size := by
              rcases hd : s.dtbo with _ | d
              · exact absurd (hd ▸ hap.1) hr
              · rcases d with _ | ⟨x, xs⟩
                · exact absurd (hd ▸ hap.2) hr
                · simp [hd] at hlen; omega
            have hst : (stepOp ap s (Op.opStatusStore (some value) count)).1
                = { s with id := ap s.dtbo } := by
              simp [stepOp, dtbocfg_overlay_item_status_store, hv, hid,
                dtbocfg_overlay_item_create, hr]
            rw [hst]
            exact ⟨hlen, fun _ => hblob⟩
        · have hst : (stepOp ap s (Op.opStatusStore (some value) count)).1 = s := by
            simp [stepOp, dtbocfg_overlay_item_status_store, hv, hid]
          rw [hst]; exact ⟨hlen, happlied⟩
  | opDtboStore alloc data =>
    by_cases hsz : 0 < s.dtbo_size
    · by_cases hid : 0 ≤ s.id
      · have hst : (stepOp ap s (Op.opDtboStore alloc data)).1 = s := by
          simp [stepOp, dtbocfg_overlay_item_dtbo_store, hsz, hid]
        rw [hst]; exact ⟨hlen, happlied⟩
      · cases alloc with
        | true =>
          have hst : (stepOp ap s (Op.opDtboStore true data)).1
              = { s with dtbo := some data, dtbo_size := data.length } := by
            simp [stepOp, dtbocfg_overlay_item_dtbo_store, hsz, hid,
              dtbocfg_dtbo_copyin]
          rw [hst]
          exact ⟨by simp, fun h => absurd h (by simpa using hid)⟩
        | false =>
          have hst : (stepOp ap s (Op.opDtboStore false data)).1
              = { s with dtbo := none, dtbo_size := 0 } := by
            simp [stepOp, dtbocfg_overlay_item_dtbo_store, hsz, hid,
              dtbocfg_dtbo_copyin]
          rw [hst]
          exact ⟨by simp, fun h => absurd h (by simpa using hid)⟩
    · have hid : s.id < 0 := by
        by_contra hc
        have := happlied (by omega)
        omega
      cases alloc with
      | true =>
        have hst : (stepOp ap s (Op.opDtboStore true data)).1
            = { s with dtbo := some data, dtbo_size := data.length } := by
          simp [stepOp, dtbocfg_overlay_item_dtbo_store, hsz,
            dtbocfg_dtbo_copyin]
        rw [hst]
        exact ⟨by simp, fun h => absurd h (by simp; omega)⟩
      | false =>
        have hst : (stepOp ap s (Op.opDtboStore false data)).1
            = { s with dtbo := none, dtbo_size := 0 } := by
          simp [stepOp, dtbocfg_overlay_item_dtbo_store, hsz,
            dtbocfg_dtbo_copyin]
        rw [hst]
        exact ⟨by simp, fun h => absurd h (by simp; omega)⟩
  | opStatusShow =>
    have hst : (stepOp ap s Op.opStatusShow).1 = s := by
      simp [stepOp, dtbocfg_overlay_item_status_show]
    rw [hst]; exact ⟨hlen, happlied⟩
  | opDtboShow limit =>
    have hst : (stepOp ap s (Op.opDtboShow limit)).1 = s := by
      rcases hd : s.dtbo with _ | d <;>
        simp [stepOp, dtbocfg_overlay_item_dtbo_show, hd]
      split <;> rfl
    rw [hst]; exact ⟨hlen, happlied⟩

/-- Every reachable item state satisfies the driver's state invariant,
provided the backend rejects absent and empty blobs. -/
theorem reachable_valid (ap : Option (List Nat) → Int)
    (hap : BackendRejectsEmpty ap) (s : OverlayItem) (hs : Reachable ap s) :
    Valid s := by
  induction hs with
  | init => exact valid_initItem
  | step s o _ ih => exact valid_stepOp ap hap s ih o

/-- Number of `releaseCall` events (calls to `of_overlay_destroy`) in a
backend trace. -/
def countRel : List BEvent → Nat
  | [] => 0
  | BEvent.releaseCall _ :: es => countRel es + 1
  | BEvent.applyCall _ _ :: es => countRel es

/-- Number of successful apply calls (events whose recorded backend result
is non-negative, i.e. a fresh overlay id was handed out) in a trace. -/
def countAppOk : List BEvent → Nat
  | [] => 0
  | BEvent.applyCall _ r :: es => (if 0 ≤ r then 1 else 0) + countAppOk es
  | BEvent.releaseCall _ :: es => countAppOk es

theorem countRel_append (a b : List BEvent) :
    countRel (a ++ b) = countRel a + countRel b := by
  induction a with
  | nil => simp [countRel]
  | cons e es ih => cases e <;> simp [countRel, ih] <;> omega

theorem countAppOk_append (a b : List BEvent) :
    countAppOk (a ++ b) = countAppOk a + countAppOk b := by
  induction a with
  | nil => simp [countAppOk]
  | cons e es ih => cases e <;> simp [countAppOk, ih] <;> omega

/-- `dtbocfg_overlay_item_status_show` does not mutate the item. -/
theorem status_show_st (s : OverlayItem) :
    (dtbocfg_overlay_item_status_show s).1 = s := rfl

/-- `dtbocfg_overlay_item_dtbo_show` does not mutate the item. -/
theorem dtbo_show_st (limit : Nat) (s : OverlayItem) :
    (dtbocfg_overlay_item_dtbo_show limit s).st = s := by
  rcases hd : s.dtbo with _ | d
  · simp [dtbocfg_overlay_item_dtbo_show, hd]
  · simp only [dtbocfg_overlay_item_dtbo_show, hd]
    split <;> rfl

/-- `dtbocfg_overlay_item_dtbo_store` never changes the overlay id. -/
theorem dtbo_store_id (alloc : Bool) (s : OverlayItem) (data : List Nat) :
    (dtbocfg_overlay_item_dtbo_store alloc s data).1.id = s.id := by
  simp only [dtbocfg_overlay_item_dtbo_store, dtbocfg_dtbo_copyin]
  split
  · split
    · rfl
    · split <;> rfl
  · split <;> rfl

/-- Balance of one step: the number of releases plus a pending-release token
(1 when the resulting state is applied) equals the number of successful
applies plus the token for the starting state. -/
theorem stepOp_balance (ap : Option (List Nat) → Int) (s : OverlayItem)
    (o : Op) :
    countRel (stepOp ap s o).2
        + (if 0 ≤ (stepOp ap s o).1.id then 1 else 0)
      = countAppOk (stepOp ap s o).2 + (if 0 ≤ s.id then 1 else 0) := by
  cases o with
  | opStatusStore parsed count =>
    cases parsed with
    | none => simp [stepOp, dtbocfg_overlay_item_status_store, countRel, countAppOk]
    | some value =>
      by_cases hv : value = 0
      · by_cases hid : 0 ≤ s.id
        · simp [stepOp, dtbocfg_overlay_item_status_store, hv, hid,
            dtbocfg_overlay_item_release, countRel, countAppOk]
        · simp [stepOp, dtbocfg_overlay_item_status_store, hv, hid, countRel,
            countAppOk]
      · by_cases hid : s.id < 0
        · by_cases hr : ap s.dtbo < 0
          · simp [stepOp, dtbocfg_overlay_item_status_store, hv, hid,
              dtbocfg_overlay_item_create, hr, countRel, countAppOk]
            try omega
          · simp [stepOp, dtbocfg_overlay_item_status_store, hv, hid,
              dtbocfg_overlay_item_create, hr, countRel, countAppOk]
            try omega
        · simp [stepOp, dtbocfg_overlay_item_status_store, hv, hid, countRel,
            countAppOk]
  | opDtboStore alloc data =>
    simp [stepOp, countRel, countAppOk, dtbo_store_id]
  | opStatusShow =>
    simp [stepOp, countRel, countAppOk, dtbocfg_overlay_item_status_show]
  | opDtboShow limit =>
    simp [stepOp, countRel, countAppOk, dtbo_show_st]

/-- Balance over a whole run: releases plus the pending token of the final
state equal successful applies plus the pending token of the start state. -/
theorem run_balance (ap : Option (List Nat) → Int) (ops : List Op)
    (s : OverlayItem) :
    countRel (run ap s ops).2
        + (if 0 ≤ (run ap s ops).1.id then 1 else 0)
      = countAppOk (run ap s ops).2 + (if 0 ≤ s.id then 1 else 0) := by
  induction ops generalizing s with
  | nil => simp [run, countRel, countAppOk]
  | cons o os ih =>
    have h1 := stepOp_balance ap s o
    have h2 := ih (stepOp ap s o).1
    simp only [run, countRel_append, countAppOk_append]
    omega

/-- A concrete backend that fails every apply attempt with `-EINVAL`. -/
def apAllFail : Option (List Nat) → Int := fun _ => -EINVAL

/-- A concrete backend that applies any non-empty blob, always assigning
overlay id 7, and rejects absent or empty blobs. -/
def apSome : Option (List Nat) → Int
  | some (_ :: _) => 7
  | _ => -EINVAL

/-- A call into the configfs registration framework made by
`dtbocfg_module_init`: the outcome of `configfs_register_subsystem`, the
outcome of `configfs_register_group`, or `configfs_unregister_subsystem`. -/
inductive RegEvent where
  | registerSubsysOk
  | registerSubsysFail
  | registerGroupOk
  | registerGroupFail
  | unregisterSubsys
deriving DecidableEq

/-- Net registration state of the subsystem and its "overlays" group. -/
structure RegState where
  subsysReg : Bool
  groupReg : Bool
deriving DecidableEq

/-- Effect of one framework call on the net registration state (a failed
registration leaves nothing registered). -/
def applyRegEvent (st : RegState) : RegEvent → RegState
  | RegEvent.registerSubsysOk => { st with subsysReg := true }
  | RegEvent.registerSubsysFail => st
  | RegEvent.registerGroupOk => { st with groupReg := true }
  | RegEvent.registerGroupFail => st
  | RegEvent.unregisterSubsys => { st with subsysReg := false }

/-- Net registration state after a sequence of framework calls, starting
from nothing registered. -/
def netRegState (evs : List RegEvent) : RegState :=
  List.foldl applyRegEvent ⟨false, false⟩ evs

/-- `dtbocfg_module_init`: register the subsystem (framework returns
`regSubsys`); on failure return that error; then register the "overlays"
group (framework returns `regGroup`); on failure unregister the subsystem
and return that error; otherwise return 0. -/
def dtbocfg_module_init (regSubsys regGroup : Int) : Int × List RegEvent :=
  if regSubsys ≠ 0 then (regSubsys, [RegEvent.registerSubsysFail])
  else if regGroup ≠ 0 then
    (regGroup, [RegEvent.registerSubsysOk, RegEvent.registerGroupFail,
      RegEvent.unregisterSubsys])
  else (0, [RegEvent.registerSubsysOk, RegEvent.registerGroupOk])

/-- Claim C9: `read_blob` (`dtbocfg_overlay_item_dtbo_show`) and `status`
(`dtbocfg_overlay_item_status_show`) are pure observers: for every item
state and every limit, the item's entire state (overlay id, blob contents,
blob length) is unchanged by the call, whether it succeeds or fails. -/
theorem C9_show_callbacks_pure (s : OverlayItem) (limit : Nat) :
    (dtbocfg_overlay_item_dtbo_show limit s).st = s ∧
    (dtbocfg_overlay_item_status_show s).1 = s :=
  ⟨dtbo_show_st limit s, rfl⟩

/-- Claim C10: the status store treats every nonzero parsed decimal value
identically (same resulting state, same return value, same backend calls),
and every zero value behaves as disable: release the overlay when applied,
no-op otherwise, returning `count` either way. -/
theorem C10_status_truthiness (ap : Option (List Nat) → Int)
    (s : OverlayItem) (count : Nat) :
    (∀ v1 v2 : Nat, v1 ≠ 0 → v2 ≠ 0 →
      dtbocfg_overlay_item_status_store ap s (some v1) count
        = dtbocfg_overlay_item_status_store ap s (some v2) count) ∧
    (dtbocfg_overlay_item_status_store ap s (some 0) count
      = if 0 ≤ s.id then
          ⟨{ s with id := -1 }, (count : Int), [BEvent.releaseCall s.id]⟩
        else ⟨s, (count : Int), []⟩) := by
  constructor
  · intro v1 v2 h1 h2
    simp [dtbocfg_overlay_item_status_store, h1, h2]
  · by_cases hid : 0 ≤ s.id <;>
      simp [dtbocfg_overlay_item_status_store, hid,
        dtbocfg_overlay_item_release]

/-- Witness for C10 at a concrete input: values 1 and 2 on the fresh item
give the same result, and value 0 is a no-op there. -/
theorem C10_witness :
    dtbocfg_overlay_item_status_store apAllFail initItem (some 1) 1
        = dtbocfg_overlay_item_status_store apAllFail initItem (some 2) 1 ∧
    dtbocfg_overlay_item_status_store apAllFail initItem (some 0) 1
        = if 0 ≤ initItem.id then
            ⟨{ initItem with id := -1 }, (1 : Int),
              [BEvent.releaseCall initItem.id]⟩
          else ⟨initItem, (1 : Int), []⟩ :=
  ⟨(C10_status_truthiness apAllFail initItem 1).1 1 2 (by decide) (by decide),
    (C10_status_truthiness apAllFail initItem 1).2⟩

/-- Claim C6: `set_status` is idempotent in both directions: on an item that
is not applied, writing status 0 is a no-op success making no backend call;
on an item that is applied, writing any nonzero status is a no-op success
making no backend call (so repeated enables never re-invoke the backend
apply: at most one apply per item between releases). -/
theorem C6_set_status_idempotent (ap : Option (List Nat) → Int)
    (s : OverlayItem) (count : Nat) :
    (s.id < 0 →
      dtbocfg_overlay_item_status_store ap s (some 0) count
        = ⟨s, (count : Int), []⟩) ∧
    (∀ v : Nat, v ≠ 0 → 0 ≤ s.id →
      dtbocfg_overlay_item_status_store ap s (some v) count
        = ⟨s, (count : Int), []⟩) := by
  constructor
  · intro hid
    simp [dtbocfg_overlay_item_status_store,
      show ¬ 0 ≤ s.id from by omega]
  · intro v hv hid
    simp [dtbocfg_overlay_item_status_store, hv,
      show ¬ s.id < 0 from by omega]

/-- Witness for C6 at concrete inputs: disabling the fresh (not applied)
item is a no-op, and enabling an already-applied item is a no-op. -/
theorem C6_witness :
    dtbocfg_overlay_item_status_store apAllFail initItem (some 0) 1
        = ⟨initItem, (1 : Int), []⟩ ∧
    dtbocfg_overlay_item_status_store apAllFail ⟨7, some [1, 2], 2⟩ (some 5) 1
        = ⟨⟨7, some [1, 2], 2⟩, (1 : Int), []⟩ :=
  ⟨(C6_set_status_idempotent apAllFail initItem 1).1 (by decide),
    (C6_set_status_idempotent apAllFail ⟨7, some [1, 2], 2⟩ 1).2 5
      (by decide) (by decide)⟩

/-- Claim C4: for every byte sequence `b` with `b.length ≤ limit` and every
item that is not applied, a successful `store_blob b` returns the number of
bytes stored (`b.length`) and a following `read_blob limit` returns exactly
`b`, with a non-negative (success) return value. -/
theorem C4_store_read_roundtrip (s : OverlayItem) (hid : s.id < 0)
    (b : List Nat) (limit : Nat) (hb : b.length ≤ limit) :
    (dtbocfg_overlay_item_dtbo_store true s b).2 = (b.length : Int) ∧
    (dtbocfg_overlay_item_dtbo_show limit
        (dtbocfg_overlay_item_dtbo_store true s b).1).buf = b ∧
    (dtbocfg_overlay_item_dtbo_show limit
        (dtbocfg_overlay_item_dtbo_store true s b).1).ret
      = (b.length : Int) := by
  have hnid : ¬ 0 ≤ s.id := by omega
  have hst : (dtbocfg_overlay_item_dtbo_store true s b).1
      = { s with dtbo := some b, dtbo_size := b.length } := by
    simp only [dtbocfg_overlay_item_dtbo_store, dtbocfg_dtbo_copyin]
    split
    · simp [hnid]
    · simp
  have hret : (dtbocfg_overlay_item_dtbo_store true s b).2
      = (b.length : Int) := by
    simp only [dtbocfg_overlay_item_dtbo_store, dtbocfg_dtbo_copyin]
    split
    · simp [hnid]
    · simp
  refine ⟨hret, ?_, ?_⟩ <;>
    rw [hst] <;>
    simp [dtbocfg_overlay_item_dtbo_show, show ¬ limit < b.length from by omega]

/-- Witness for C4 at a concrete input: storing two bytes into the fresh
item and reading them back with limit 4 returns exactly those bytes. -/
theorem C4_witness :
    (dtbocfg_overlay_item_dtbo_store true initItem [3, 4]).2 = (2 : Int) ∧
    (dtbocfg_overlay_item_dtbo_show 4
        (dtbocfg_overlay_item_dtbo_store true initItem [3, 4]).1).buf
      = [3, 4] ∧
    (dtbocfg_overlay_item_dtbo_show 4
        (dtbocfg_overlay_item_dtbo_store true initItem [3, 4]).1).ret
      = (2 : Int) := by
  have h := C4_store_read_roundtrip initItem (by decide) [3, 4] 4 (by decide)
  simpa using h

/-- Claim C8: if subsystem registration succeeds but the "overlays" group
registration fails, `dtbocfg_module_init` unregisters the subsystem before
returning the group error, leaving nothing registered; and it returns 0
exactly when both registrations succeeded (in which case both stay
registered). -/
theorem C8_init_no_partial_registration (regSubsys regGroup : Int) :
    (regSubsys = 0 → regGroup ≠ 0 →
      (dtbocfg_module_init regSubsys regGroup).1 = regGroup ∧
      (dtbocfg_module_init regSubsys regGroup).2
        = [RegEvent.registerSubsysOk, RegEvent.registerGroupFail,
            RegEvent.unregisterSubsys] ∧
      netRegState (dtbocfg_module_init regSubsys regGroup).2
        = ⟨false, false⟩) ∧
    ((dtbocfg_module_init regSubsys regGroup).1 = 0 ↔
      regSubsys = 0 ∧ regGroup = 0) ∧
    ((dtbocfg_module_init regSubsys regGroup).1 = 0 →
      netRegState (dtbocfg_module_init regSubsys regGroup).2
        = ⟨true, true⟩) := by
  by_cases hs : regSubsys = 0
  · by_cases hg : regGroup = 0
    · simp [dtbocfg_module_init, hs, hg, netRegState, applyRegEvent]
    · simp [dtbocfg_module_init, hs, hg, netRegState, applyRegEvent]
  · simp [dtbocfg_module_init, hs, netRegState, applyRegEvent]

/-- Witness for C8 at a concrete input: subsystem registration succeeds,
group registration fails with -12; init returns -12 having unregistered the
subsystem. -/
theorem C8_witness :
    (dtbocfg_module_init 0 (-12)).1 = -12 ∧
    (dtbocfg_module_init 0 (-12)).2
      = [RegEvent.registerSubsysOk, RegEvent.registerGroupFail,
          RegEvent.unregisterSubsys] ∧
    netRegState (dtbocfg_module_init 0 (-12)).2 = ⟨false, false⟩ :=
  (C8_init_no_partial_registration 0 (-12)).1 rfl (by decide)

/-- Counterexample to claim C1 as stated: on the freshly created Empty item
(`dtbo = NULL`) with a backend that rejects every blob, writing status 1
does not fail at all — the store callback discards the create error and
returns the full byte count 2, a success. -/
theorem C1_counterexample :
    initItem.dtbo = none ∧
    (dtbocfg_overlay_item_status_store apAllFail initItem (some 1) 2).ret
      = 2 ∧
    ¬ (dtbocfg_overlay_item_status_store apAllFail initItem
        (some 1) 2).ret < 0 := by
  refine ⟨rfl, ?_, ?_⟩ <;> decide

/-- Claim C1 (amended): on every reachable Empty item (no blob stored),
writing a nonzero status is silently tolerated rather than failing: the
internal apply is attempted and fails, the call returns the written byte
count (success), the item is unchanged, the blob remains absent, and
`status` still reports 0 afterwards. -/
theorem C1_empty_enable_silently_tolerated (ap : Option (List Nat) → Int)
    (hap : BackendRejectsEmpty ap) (s : OverlayItem) (hs : Reachable ap s)
    (hempty : s.dtbo = none) (v : Nat) (hv : v ≠ 0) (count : Nat) :
    (dtbocfg_overlay_item_status_store ap s (some v) count).st = s ∧
    (dtbocfg_overlay_item_status_store ap s (some v) count).ret
      = (count : Int) ∧
    (dtbocfg_overlay_item_status_store ap s (some v) count).st.dtbo
      = none ∧
    (dtbocfg_overlay_item_status_show
        (dtbocfg_overlay_item_status_store ap s (some v) count).st).2
      = 0 := by
  have hval := reachable_valid ap hap s hs
  have hsz : s.dtbo_size = 0 := by
    have h1 := hval.1
    rw [hempty] at h1
    simpa using h1
  have hid : s.id < 0 := by
    by_contra hc
    have := hval.2 (by omega)
    omega
  have hfail : ap s.dtbo < 0 := by rw [hempty]; exact hap.1
  have hst : (dtbocfg_overlay_item_status_store ap s (some v) count).st
      = s := by
    simp [dtbocfg_overlay_item_status_store, hv, hid,
      dtbocfg_overlay_item_create, hfail]
  refine ⟨hst, ?_, ?_, ?_⟩
  · simp [dtbocfg_overlay_item_status_store, hv, hid,
      dtbocfg_overlay_item_create, hfail]
  · rw [hst, hempty]
  · rw [hst]
    simp [dtbocfg_overlay_item_status_show, show ¬ 0 ≤ s.id from by omega]

/-- Witness for the amended C1 at a concrete input: the fresh item, status
value 1, count 2, with a backend that rejects every blob. -/
theorem C1_witness :
    (dtbocfg_overlay_item_status_store apAllFail initItem (some 1) 2).st
        = initItem ∧
    (dtbocfg_overlay_item_status_store apAllFail initItem (some 1) 2).ret
        = (2 : Int) ∧
    (dtbocfg_overlay_item_status_store apAllFail initItem
        (some 1) 2).st.dtbo = none ∧
    (dtbocfg_overlay_item_status_show
        (dtbocfg_overlay_item_status_store apAllFail initItem
          (some 1) 2).st).2 = 0 :=
  C1_empty_enable_silently_tolerated apAllFail ⟨by decide, by decide⟩
    initItem Reachable.init rfl 1 (by decide) 2

/-- Counterexample to claim C2 as stated: store four bytes into the fresh
item (reaching a Loaded state), then write status 1 with a backend that
fails the apply with `-EINVAL` (-22): the item does stay Loaded, but the
call returns the byte count 2 — a success — instead of surfacing the
backend's error. -/
theorem C2_counterexample :
    ((dtbocfg_overlay_item_dtbo_store true initItem
        [208, 13, 254, 237]).1.id < 0 ∧
      0 < (dtbocfg_overlay_item_dtbo_store true initItem
        [208, 13, 254, 237]).1.dtbo_size) ∧
    apAllFail (dtbocfg_overlay_item_dtbo_store true initItem
        [208, 13, 254, 237]).1.dtbo = -22 ∧
    (dtbocfg_overlay_item_status_store apAllFail
        (dtbocfg_overlay_item_dtbo_store true initItem
          [208, 13, 254, 237]).1 (some 1) 2).ret = 2 ∧
    ¬ (dtbocfg_overlay_item_status_store apAllFail
        (dtbocfg_overlay_item_dtbo_store true initItem
          [208, 13, 254, 237]).1 (some 1) 2).ret < 0 ∧
    (dtbocfg_overlay_item_status_store apAllFail
        (dtbocfg_overlay_item_dtbo_store true initItem
          [208, 13, 254, 237]).1 (some 1) 2).ret ≠ -22 := by
  refine ⟨⟨?_, ?_⟩, ?_, ?_, ?_, ?_⟩ <;> decide

/-- Claim C2 (amended): on every Loaded item (not applied, blob present),
if the backend apply fails during a nonzero status write, the item remains
exactly as it was (still Loaded, overlay id still absent, blob unchanged),
but the operation returns the written byte count — a success — swallowing
the backend's error instead of surfacing it. -/
theorem C2_apply_error_swallowed (ap : Option (List Nat) → Int)
    (s : OverlayItem) (hid : s.id < 0) (hblob : 0 < s.dtbo_size)
    (hfail : ap s.dtbo < 0) (v : Nat) (hv : v ≠ 0) (count : Nat) :
    (dtbocfg_overlay_item_status_store ap s (some v) count).st = s ∧
    (dtbocfg_overlay_item_status_store ap s (some v) count).ret
      = (count : Int) := by
  constructor <;>
    simp [dtbocfg_overlay_item_status_store, hv, hid,
      dtbocfg_overlay_item_create, hfail]

/-- Witness for the amended C2 at a concrete input: a Loaded item holding
two bytes, a backend that fails the apply, status value 1, count 2. -/
theorem C2_witness :
    (dtbocfg_overlay_item_status_store apAllFail ⟨-1, some [1, 2], 2⟩
        (some 1) 2).st = ⟨-1, some [1, 2], 2⟩ ∧
    (dtbocfg_overlay_item_status_store apAllFail ⟨-1, some [1, 2], 2⟩
        (some 1) 2).ret = (2 : Int) :=
  C2_apply_error_swallowed apAllFail ⟨-1, some [1, 2], 2⟩ (by decide)
    (by decide) (by decide) 1 (by decide) 2

/-- Claim C3: on every reachable Applied item (overlay id present), a blob
store with any data and any allocation outcome fails with `-EPERM` (Busy)
and leaves the whole item state — in particular the stored blob —
unchanged. -/
theorem C3_store_busy_while_applied (ap : Option (List Nat) → Int)
    (hap : BackendRejectsEmpty ap) (s : OverlayItem) (hs : Reachable ap s)
    (hid : 0 ≤ s.id) (alloc : Bool) (data : List Nat) :
    dtbocfg_overlay_item_dtbo_store alloc s data = (s, -EPERM) := by
  have hval := reachable_valid ap hap s hs
  have hsz : 0 < s.dtbo_size := hval.2 hid
  simp [dtbocfg_overlay_item_dtbo_store, hsz, hid]

/-- Witness for C3 at a concrete input: load two bytes, apply them through
a backend that assigns id 7, then attempt to store one byte: the call
returns `-EPERM` and the state is unchanged. -/
theorem C3_witness :
    dtbocfg_overlay_item_dtbo_store true
        (stepOp apSome (stepOp apSome initItem
          (Op.opDtboStore true [1, 2])).1 (Op.opStatusStore (some 1) 1)).1
        [9]
      = ((stepOp apSome (stepOp apSome initItem
          (Op.opDtboStore true [1, 2])).1
          (Op.opStatusStore (some 1) 1)).1, -EPERM) :=
  C3_store_busy_while_applied apSome ⟨by decide, by decide⟩ _
    (Reachable.step _ _ (Reachable.step _ _ Reachable.init)) (by decide)
    true [9]

/-- Claim C5: on every reachable item, a `dtbo` read fails exactly when the
stored blob's size exceeds the page limit (and then with `-EINVAL`,
mapping the spec's TooLarge); when it does not exceed the limit the read
returns the entire stored blob without truncation; and on an Empty item
(no blob) it succeeds, returning zero bytes. -/
theorem C5_read_all_or_fail (ap : Option (List Nat) → Int)
    (hap : BackendRejectsEmpty ap) (s : OverlayItem) (hs : Reachable ap s)
    (limit : Nat) :
    ((dtbocfg_overlay_item_dtbo_show limit s).ret < 0 ↔
      limit < s.dtbo_size) ∧
    (limit < s.dtbo_size →
      (dtbocfg_overlay_item_dtbo_show limit s).ret = -EINVAL) ∧
    (s.dtbo_size ≤ limit →
      (dtbocfg_overlay_item_dtbo_show limit s).buf = s.dtbo.getD [] ∧
      (dtbocfg_overlay_item_dtbo_show limit s).ret
        = (s.dtbo_size : Int)) ∧
    (s.dtbo = none →
      (dtbocfg_overlay_item_dtbo_show limit s).ret = 0 ∧
      (dtbocfg_overlay_item_dtbo_show limit s).buf = []) := by
  have hval := reachable_valid ap hap s hs
  rcases hd : s.dtbo with _ | d
  · have hsz : s.dtbo_size = 0 := by
      have h1 := hval.1
      rw [hd] at h1
      simpa using h1
    simp [dtbocfg_overlay_item_dtbo_show, hd, hsz, EINVAL]
  · have hsz : s.dtbo_size = d.length := by
      have h1 := hval.1
      rw [hd] at h1
      simpa using h1
    by_cases hlim : limit < s.dtbo_size
    · have hret : (dtbocfg_overlay_item_dtbo_show limit s).ret = -EINVAL := by
        simp [dtbocfg_overlay_item_dtbo_show, hd, hlim]
      refine ⟨?_, fun _ => hret, fun hc => absurd hlim (by omega), ?_⟩
      · rw [hret]
        simp [EINVAL, hlim]
      · intro hc
        cases hc
    · have hret : (dtbocfg_overlay_item_dtbo_show limit s).ret
          = (s.dtbo_size : Int) := by
        simp [dtbocfg_overlay_item_dtbo_show, hd, hlim]
      have hbuf : (dtbocfg_overlay_item_dtbo_show limit s).buf = d := by
        simp only [dtbocfg_overlay_item_dtbo_show, hd, hlim, if_false,
          ite_false]
        rw [hsz]
        exact List.take_length d
      refine ⟨?_, fun hc => absurd hc hlim, fun _ => ⟨?_, hret⟩, ?_⟩
      · rw [hret]
        constructor
        · intro hc
          omega
        · intro hc
          exact absurd hc hlim
      · rw [hbuf]
        rfl
      · intro hc
        cases hc

/-- Witness for C5 at a concrete input: the fresh (Empty) reachable item
with limit 0 — the read succeeds, returning zero bytes. -/
theorem C5_witness :
    ((dtbocfg_overlay_item_dtbo_show 0 initItem).ret < 0 ↔
      0 < initItem.dtbo_size) ∧
    (0 < initItem.dtbo_size →
      (dtbocfg_overlay_item_dtbo_show 0 initItem).ret = -EINVAL) ∧
    (initItem.dtbo_size ≤ 0 →
      (dtbocfg_overlay_item_dtbo_show 0 initItem).buf
          = initItem.dtbo.getD [] ∧
      (dtbocfg_overlay_item_dtbo_show 0 initItem).ret
          = (initItem.dtbo_size : Int)) ∧
    (initItem.dtbo = none →
      (dtbocfg_overlay_item_dtbo_show 0 initItem).ret = 0 ∧
      (dtbocfg_overlay_item_dtbo_show 0 initItem).buf = []) :=
  C5_read_all_or_fail apAllFail ⟨by decide, by decide⟩ initItem
    Reachable.init 0

/-- Claim C7: destroying an Applied item (the configfs release destructor)
invokes the backend release on its overlay id exactly once and then clears
the blob; and over any full item lifetime — any operation sequence from
creation followed by destruction — the number of backend releases equals
the number of successful backend applies, so no assigned id is ever
released twice. -/
theorem C7_release_exactly_once (ap : Option (List Nat) → Int)
    (s : OverlayItem) (hid : 0 ≤ s.id) (ops : List Op) :
    ((dtbocfg_overlay_release s).2 = [BEvent.releaseCall s.id] ∧
      (dtbocfg_overlay_release s).1.dtbo = none) ∧
    countRel ((run ap initItem ops).2
        ++ (dtbocfg_overlay_release (run ap initItem ops).1).2)
      = countAppOk ((run ap initItem ops).2
        ++ (dtbocfg_overlay_release (run ap initItem ops).1).2) := by
  constructor
  · constructor
    · simp [dtbocfg_overlay_release, dtbocfg_overlay_item_release, hid]
    · simp only [dtbocfg_overlay_release, dtbocfg_overlay_item_release, hid,
        if_true]
      rcases hd : s.dtbo with _ | d <;> simp [hd]
  · have hbal := run_balance ap ops initItem
    have hinit : ¬ (0 : Int) ≤ initItem.id := by decide
    rw [countRel_append, countAppOk_append]
    by_cases hfid : 0 ≤ (run ap initItem ops).1.id
    · have hev : (dtbocfg_overlay_release (run ap initItem ops).1).2
          = [BEvent.releaseCall (run ap initItem ops).1.id] := by
        simp [dtbocfg_overlay_release, dtbocfg_overlay_item_release, hfid]
      rw [hev]
      simp only [hinit, hfid, if_true, if_false, ite_true, ite_false] at hbal
      simp [countRel, countAppOk]
      omega
    · have hev : (dtbocfg_overlay_release (run ap initItem ops).1).2
          = [] := by
        simp [dtbocfg_overlay_release, dtbocfg_overlay_item_release, hfid]
      rw [hev]
      simp only [hinit, hfid, if_true, if_false, ite_true, ite_false] at hbal
      simp [countRel, countAppOk]
      omega

/-- Witness for C7 at concrete inputs: destroying the applied item built by
loading and applying two bytes makes exactly one release call, and over the
concrete lifetime load-apply-destroy the release count equals the
successful-apply count. -/
theorem C7_witness :
    ((dtbocfg_overlay_release ⟨7, some [1, 2], 2⟩).2
        = [BEvent.releaseCall (7 : Int)] ∧
      (dtbocfg_overlay_release ⟨7, some [1, 2], 2⟩).1.dtbo = none) ∧
    countRel ((run apSome initItem
          [Op.opDtboStore true [1, 2], Op.opStatusStore (some 1) 1]).2
        ++ (dtbocfg_overlay_release (run apSome initItem
          [Op.opDtboStore true [1, 2],
            Op.opStatusStore (some 1) 1]).1).2)
      = countAppOk ((run apSome initItem
          [Op.opDtboStore true [1, 2], Op.opStatusStore (some 1) 1]).2
        ++ (dtbocfg_overlay_release (run apSome initItem
          [Op.opDtboStore true [1, 2],
            Op.opStatusStore (some 1) 1]).1).2) :=
  C7_release_exactly_once apSome ⟨7, some [1, 2], 2⟩ (by decide)
    [Op.opDtboStore true [1, 2], Op.opStatusStore (some 1) 1]

end Dtbocfg
